import Mathlib

/-!
Verification of the typed API client of the `snap` dashboard
(`src/client/lib/api.ts`): transport-client configuration, request/response
interceptors, error classification and the health probe.

The embedding is shallow: the module-level constants and functions of
`api.ts` become Lean definitions over an explicit environment record, the
axios client instance becomes a configuration record, the interceptors
become pure functions on request configurations and error values, and a
call through the client consumes exactly one transport outcome (axios
issues a single HTTP attempt per call; the code installs no retry logic).
-/

/-- A JSON value, as delivered by the HTTP layer in `response.data`.
Numbers are modelled as integers; no claim inspects numeric payloads. -/
inductive Json where
  | null
  | bool (b : Bool)
  | num (n : Int)
  | str (s : String)
  | arr (elems : List Json)
  | obj (fields : List (String × Json))

/-- Field lookup in a parsed JSON object (keys of a parsed object are
unique, so first match suffices). -/
def lookupJson : List (String × Json) → String → Option Json
  | [], _ => none
  | (k, v) :: rest, key => if k = key then some v else lookupJson rest key

/-- JavaScript property access `data.field` on a JSON value: yields the
field of an object, and `undefined` (here `none`) on every non-object. -/
def jsonField : Json → String → Option Json
  | Json.obj fields, key => lookupJson fields key
  | _, _ => none

/-- The process environment as read by `api.ts`:
`NEXT_PUBLIC_API_BASE_URL` and `NEXT_PUBLIC_VECTORSNAP_API_KEY`,
each possibly absent. -/
structure Env where
  apiBaseUrl : Option String
  apiKey : Option String

/-- `process.env.NEXT_PUBLIC_API_BASE_URL || 'http://localhost:8000/api/v1'`:
JavaScript `||` falls through to the default when the variable is absent
or the empty string (the only falsy string). -/
def API_BASE_URL (env : Env) : String :=
  match env.apiBaseUrl with
  | none => "http://localhost:8000/api/v1"
  | some s => if s = "" then "http://localhost:8000/api/v1" else s

/-- `process.env.NEXT_PUBLIC_VECTORSNAP_API_KEY`. -/
def API_KEY (env : Env) : Option String :=
  env.apiKey

/-- Boolean prefix test on character lists (JavaScript substring match at
a position is phrased through it). -/
def isPrefixOfB : List Char → List Char → Bool
  | [], _ => true
  | _ :: _, [] => false
  | a :: as, b :: bs => a == b && isPrefixOfB as bs

/-- JavaScript `String.prototype.replace` with a *string* pattern:
replaces only the first occurrence of `pat`, scanning left to right;
returns the input unchanged when `pat` does not occur. -/
def listReplaceFirst (pat repl : List Char) : List Char → List Char
  | [] => if pat.isEmpty then repl else []
  | c :: cs =>
    if isPrefixOfB pat (c :: cs) then repl ++ (c :: cs).drop pat.length
    else c :: listReplaceFirst pat repl cs

/-- `s.replace(pat, repl)` for string arguments (first occurrence only). -/
def jsReplace (s pat repl : String) : String :=
  String.mk (listReplaceFirst pat.data repl.data s.data)

/-- Axios `combineURLs`: strip trailing slashes from the base, leading
slashes from the relative URL, join with a single slash; an empty
relative URL leaves the base unchanged. -/
def combineURLs (base rel : String) : String :=
  if rel = "" then base
  else
    String.mk ((base.data.reverse.dropWhile (fun c => c == '/')).reverse)
      ++ "/" ++ String.mk (rel.data.dropWhile (fun c => c == '/'))

/-- The axios instance configuration (`axios.create({...})`). -/
structure ClientConfig where
  baseURL : String
  headers : List (String × String)
  timeout : Nat
  withCredentials : Bool
deriving DecidableEq

/-- The single shared client instance created at module initialization:
resolved base URL, JSON default headers, 10 000 ms timeout, no implicit
credential transmission. -/
def apiClient (env : Env) : ClientConfig :=
  { baseURL := API_BASE_URL env
    headers := [("Content-Type", "application/json"), ("Accept", "application/json")]
    timeout := 10000
    withCredentials := false }

/-- A per-request configuration after axios merges the instance defaults
with the per-call options (`url`, optional per-call `baseURL` override). -/
structure RequestConfig where
  url : String
  headers : List (String × String)
  timeout : Nat
  withCredentials : Bool
deriving DecidableEq

/-- Assoc-list header update: overwrite an existing header of that name,
otherwise append it. -/
def setHeader : List (String × String) → String → String → List (String × String)
  | [], name, v => [(name, v)]
  | (m, w) :: rest, name, v =>
    if m = name then (name, v) :: rest else (m, w) :: setHeader rest name v

/-- Header lookup by exact name. -/
def getHeader : List (String × String) → String → Option String
  | [], _ => none
  | (m, w) :: rest, name => if m = name then some w else getHeader rest name

/-- Build the effective request configuration for a call through the
shared client: the URL combines the per-call base-URL override (when
given) or the instance base URL with the requested path; headers,
timeout and credential policy come from the instance defaults. -/
def mkRequestConfig (client : ClientConfig) (overrideBase : Option String)
    (path : String) : RequestConfig :=
  { url := combineURLs (overrideBase.getD client.baseURL) path
    headers := client.headers
    timeout := client.timeout
    withCredentials := client.withCredentials }

/-- The request interceptor: `if (API_KEY) config.headers['X-API-Key'] = API_KEY`.
JavaScript truthiness: an absent key and the empty-string key both skip
the injection. -/
def requestInterceptor (env : Env) (config : RequestConfig) : RequestConfig :=
  match API_KEY env with
  | none => config
  | some k =>
    if k = "" then config
    else { config with headers := setHeader config.headers "X-API-Key" k }

/-- The HTTP response attached to a failed axios call (`error.response`):
status code and parsed body. -/
structure ResponseInfo where
  status : Nat
  data : Json

/-- An axios rejection value: `error.response` is present exactly when an
HTTP response was received; `error.code` carries the transport error code
(axios sets `ERR_NETWORK` when a transport-level failure — connection
refused, DNS failure — prevented any response). -/
structure AxiosError where
  response : Option ResponseInfo
  code : Option String

/-- Outcome of the single HTTP attempt that axios makes for a call:
either a 2xx response (axios default `validateStatus`) or a rejection. -/
inductive HttpOutcome where
  | success (r : ResponseInfo)
  | failure (e : AxiosError)

/-- The error taxonomy of the response interceptor's diagnostic branches. -/
inductive ErrorClass where
  | Unauthorized
  | RateLimited
  | ServerRejected
  | NetworkUnreachable
deriving DecidableEq

/-- Which diagnostic branch of the response interceptor runs for a given
error: 401 → Unauthorized, 429 → RateLimited, any other received status →
ServerRejected, no response with code `ERR_NETWORK` → NetworkUnreachable;
`none` when no branch logs (no response, some other transport code). -/
def classifyError (e : AxiosError) : Option ErrorClass :=
  match e.response with
  | some r =>
    if r.status = 401 then some ErrorClass.Unauthorized
    else if r.status = 429 then some ErrorClass.RateLimited
    else some ErrorClass.ServerRejected
  | none =>
    if e.code = some "ERR_NETWORK" then some ErrorClass.NetworkUnreachable
    else none

/-- The response interceptor's success arm: `(response) => response`. -/
def responseInterceptorOnSuccess (r : ResponseInfo) : ResponseInfo :=
  r

/-- The response interceptor's failure arm: emits the diagnostic log line
of the matching classification branch, then `return Promise.reject(error)`
— the original error value, unchanged. -/
def responseInterceptorOnError (e : AxiosError) :
    List String × Except AxiosError ResponseInfo :=
  (match e.response with
   | some r =>
     if r.status = 401 then ["Unauthorized: Invalid or missing API key"]
     else if r.status = 429 then ["Rate limit exceeded"]
     else ["API Error:"]
   | none =>
     if e.code = some "ERR_NETWORK" then
       ["Network Error: Cannot reach backend. Is the API running?"]
     else [],
   Except.error e)

/-- One call through the shared client: build the request configuration,
run the request interceptor, issue exactly one transport attempt (axios
performs no automatic retry and the code installs none), and run the
matching response-interceptor arm. Returns the caller-visible result, the
client configuration after the call (axios merges per-call options into a
fresh config and never writes the instance defaults), and the number of
HTTP requests issued. -/
def runRequest (env : Env) (overrideBase : Option String) (path : String)
    (transport : RequestConfig → Nat → HttpOutcome) :
    Except AxiosError ResponseInfo × ClientConfig × Nat :=
  match transport (requestInterceptor env (mkRequestConfig (apiClient env) overrideBase path)) 0 with
  | HttpOutcome.success r => (Except.ok (responseInterceptorOnSuccess r), apiClient env, 1)
  | HttpOutcome.failure e => ((responseInterceptorOnError e).2, apiClient env, 1)

/-- The per-call base URL the health probe passes to `apiClient.get`:
`API_BASE_URL.replace('/api/v1', '')`. -/
def healthBase (env : Env) : String :=
  jsReplace (API_BASE_URL env) "/api/v1" ""

/-- The outgoing health-probe request after both the axios config merge
and the request interceptor. -/
def healthRequest (env : Env) : RequestConfig :=
  requestInterceptor env (mkRequestConfig (apiClient env) (some (healthBase env)) "/health")

/-- The URL the health probe targets. -/
def healthRequestURL (env : Env) : String :=
  (healthRequest env).url

/-- `response.data.status === 'ok'` wrapped in the probe's `try`: strict
equality holds only for the literal string `"ok"` in the `status` field of
an object body; every other body shape (including the `TypeError` thrown
by property access on `null`, caught by the probe) yields `false`. -/
def statusIsOk (data : Json) : Bool :=
  match jsonField data "status" with
  | some (Json.str s) => s == "ok"
  | _ => false

/-- `checkApiHealth`: GET `/health` through the shared client with a
call-scoped base-URL override; `true` exactly when the response body's
`status` field is `"ok"`; `catch { return false }` turns every rejection
into `false`. Also returns the client configuration after the call. -/
def checkApiHealth (env : Env) (transport : RequestConfig → Nat → HttpOutcome) :
    Bool × ClientConfig :=
  match runRequest env (some (healthBase env)) "/health" transport with
  | (Except.ok r, st, _) => (statusIsOk r.data, st)
  | (Except.error _, st, _) => (false, st)

/-- The API key the claims call "configured": present and non-empty
(JavaScript truthiness, the test the request interceptor performs). -/
def configuredApiKey (env : Env) : Option String :=
  match env.apiKey with
  | none => none
  | some k => if k = "" then none else some k

/-- Modelled from the spec: the "root origin" of a URL — scheme and
authority (host and port), with the whole path stripped. Used only to
state claim C2's required health target, for comparison with the URL the
code actually produces. -/
def takeOriginChars : List Char → List Char
  | '/' :: '/' :: rest => '/' :: '/' :: rest.takeWhile (fun c => c != '/')
  | c :: rest => c :: takeOriginChars rest
  | [] => []

/-- Modelled from the spec: root origin of a URL string. -/
def rootOriginSpec (url : String) : String :=
  String.mk (takeOriginChars url.data)

/-! ### Helper lemmas -/

theorem requestInterceptor_url (env : Env) (c : RequestConfig) :
    (requestInterceptor env c).url = c.url := by
  unfold requestInterceptor API_KEY
  cases env.apiKey with
  | none => rfl
  | some k =>
    dsimp only
    split <;> rfl

theorem requestInterceptor_timeout (env : Env) (c : RequestConfig) :
    (requestInterceptor env c).timeout = c.timeout := by
  unfold requestInterceptor API_KEY
  cases env.apiKey with
  | none => rfl
  | some k =>
    dsimp only
    split <;> rfl

theorem checkApiHealth_fst_eq (env : Env) (transport : RequestConfig → Nat → HttpOutcome) :
    (checkApiHealth env transport).1 =
      match transport (healthRequest env) 0 with
      | HttpOutcome.success r => statusIsOk r.data
      | HttpOutcome.failure _ => false := by
  unfold checkApiHealth runRequest healthRequest
  cases transport (requestInterceptor env (mkRequestConfig (apiClient env) (some (healthBase env)) "/health")) 0 <;> rfl

/-! ### C1 — the health probe is a pure boolean contract -/

/-- C1: `checkApiHealth` returns `true` if and only if the single health
request succeeds with a body whose `status` field is the literal string
`"ok"`; every other outcome — rejection of any kind (connection refusal,
timeout, non-2xx status) or a 2xx body whose `status` field is anything
else, missing, or not reachable (malformed / non-object body) — returns
`false`. The embedding is a total boolean function, so no outcome ever
raises. -/
theorem checkApiHealth_true_iff (env : Env) (transport : RequestConfig → Nat → HttpOutcome) :
    (checkApiHealth env transport).1 = true ↔
      ∃ r, transport (healthRequest env) 0 = HttpOutcome.success r ∧
        jsonField r.data "status" = some (Json.str "ok") := by
  rw [checkApiHealth_fst_eq]
  constructor
  · intro h
    cases ho : transport (healthRequest env) 0 with
    | success r =>
      refine ⟨r, rfl, ?_⟩
      rw [ho] at h
      dsimp only at h
      unfold statusIsOk at h
      cases hf : jsonField r.data "status" with
      | none => rw [hf] at h; exact absurd h (by simp)
      | some j =>
        rw [hf] at h
        cases j with
        | str s => dsimp only at h; rw [eq_of_beq h]
        | null => exact absurd h (by simp)
        | bool b => exact absurd h (by simp)
        | num n => exact absurd h (by simp)
        | arr xs => exact absurd h (by simp)
        | obj fs => exact absurd h (by simp)
    | failure e => rw [ho] at h; exact absurd h (by simp)
  · rintro ⟨r, hr, hs⟩
    rw [hr]
    dsimp only
    unfold statusIsOk
    rw [hs]
    rfl

/-! ### C3 — API-key header injection -/

/-- C3: on every outgoing request (any per-call base-URL override, any
path), the `X-API-Key` header equals the configured key when one is
configured (present and non-empty), and is absent from the request when
none is configured. -/
theorem xApiKey_header_eq_configured (env : Env) (overrideBase : Option String) (path : String) :
    getHeader (requestInterceptor env (mkRequestConfig (apiClient env) overrideBase path)).headers
      "X-API-Key" = configuredApiKey env := by
  obtain ⟨b, key⟩ := env
  cases key with
  | none => rfl
  | some k =>
    by_cases hk : k = ""
    · subst hk; rfl
    · unfold requestInterceptor API_KEY configuredApiKey
      dsimp only
      rw [if_neg hk, if_neg hk]
      rfl

/-! ### C9 — the empty-string key counts as unconfigured -/

/-- C9: when the environment's API key is the empty string, the request
interceptor's truthiness test skips injection, so no outgoing request
carries an `X-API-Key` header. -/
theorem emptyApiKey_not_injected (env : Env) (overrideBase : Option String) (path : String)
    (h : env.apiKey = some "") :
    getHeader (requestInterceptor env (mkRequestConfig (apiClient env) overrideBase path)).headers
      "X-API-Key" = none := by
  unfold requestInterceptor API_KEY
  rw [h]
  rfl

/-- Witness for C9 at a concrete environment and request. -/
theorem emptyApiKey_not_injected_witness :
    getHeader (requestInterceptor ⟨none, some ""⟩
      (mkRequestConfig (apiClient ⟨none, some ""⟩) none "/stats")).headers "X-API-Key" = none :=
  emptyApiKey_not_injected ⟨none, some ""⟩ none "/stats" rfl

/-! ### C10 — the health request rides the shared client -/

/-- C10: the outgoing health-probe request passes through the shared
client's config merge and request interceptor: it carries the default
`Content-Type` and `Accept` headers, carries `X-API-Key` exactly when a
key is configured, keeps the 10 000 ms timeout and credential policy, and
only its base URL differs (the stripped base combined with `/health`). -/
theorem healthRequest_through_shared_client (env : Env) :
    getHeader (healthRequest env).headers "Content-Type" = some "application/json" ∧
    getHeader (healthRequest env).headers "Accept" = some "application/json" ∧
    getHeader (healthRequest env).headers "X-API-Key" = configuredApiKey env ∧
    (healthRequest env).timeout = 10000 ∧
    (healthRequest env).withCredentials = false ∧
    (healthRequest env).url = combineURLs (healthBase env) "/health" := by
  obtain ⟨b, key⟩ := env
  unfold healthRequest requestInterceptor API_KEY configuredApiKey
  cases key with
  | none => exact ⟨rfl, rfl, rfl, rfl, rfl, rfl⟩
  | some k =>
    dsimp only
    by_cases hk : k = ""
    · subst hk; exact ⟨rfl, rfl, rfl, rfl, rfl, rfl⟩
    · rw [if_neg hk, if_neg hk]
      exact ⟨rfl, rfl, rfl, rfl, rfl, rfl⟩

/-! ### C4 — the response interceptor re-raises the original error -/

/-- C4: for every failed response — whichever of the four diagnostic
branches (401, 429, other status with body, network) runs — the response
interceptor's failure arm re-raises exactly the original error value, so
its status and body stay readable by the caller; the success arm passes
responses through unchanged, and no error is ever swallowed or
replaced. -/
theorem responseInterceptor_reraises_original (e : AxiosError) (r : ResponseInfo) :
    (responseInterceptorOnError e).2 = Except.error e ∧
    responseInterceptorOnSuccess r = r :=
  ⟨rfl, rfl⟩

/-! ### C5 — transport failures classify as NetworkUnreachable -/

/-- C5: an error that received no HTTP response and carries axios's
transport-failure code `ERR_NETWORK` (connection refused, DNS failure) is
classified `NetworkUnreachable`; it bears no status code, and every error
classified `NetworkUnreachable` has no response — so callers can tell it
apart from any HTTP-level rejection, which always carries a response. -/
theorem networkFailure_classified_unreachable (e : AxiosError)
    (hresp : e.response = none) (hcode : e.code = some "ERR_NETWORK") :
    classifyError e = some ErrorClass.NetworkUnreachable ∧
    e.response.map ResponseInfo.status = none ∧
    (∀ f : AxiosError, classifyError f = some ErrorClass.NetworkUnreachable →
      f.response = none) := by
  refine ⟨?_, by rw [hresp]; rfl, ?_⟩
  · unfold classifyError
    rw [hresp, hcode]
    rfl
  · intro f hf
    cases hr : f.response with
    | none => rfl
    | some ri =>
      unfold classifyError at hf
      rw [hr] at hf
      dsimp only at hf
      by_cases h1 : ri.status = 401
      · rw [if_pos h1] at hf; exact absurd hf (by decide)
      · rw [if_neg h1] at hf
        by_cases h2 : ri.status = 429
        · rw [if_pos h2] at hf; exact absurd hf (by decide)
        · rw [if_neg h2] at hf; exact absurd hf (by decide)

/-- Witness for C5 at a concrete connection-refused error. -/
theorem networkFailure_classified_unreachable_witness :
    classifyError ⟨none, some "ERR_NETWORK"⟩ = some ErrorClass.NetworkUnreachable :=
  (networkFailure_classified_unreachable ⟨none, some "ERR_NETWORK"⟩ rfl rfl).1

/-! ### C6 — 429 classified RateLimited, no automatic retry -/

/-- C6: when the single transport attempt of a call comes back as a 429
rejection, the error is classified `RateLimited` and the rejection is
re-raised; the call issues exactly one HTTP request, and — the code
installing no retry or re-authentication logic — every call through the
client issues exactly one request whatever its outcome. -/
theorem rateLimited_no_retry (env : Env) (overrideBase : Option String) (path : String)
    (transport : RequestConfig → Nat → HttpOutcome) (e : AxiosError) (ri : ResponseInfo)
    (htrans : transport (requestInterceptor env (mkRequestConfig (apiClient env) overrideBase path)) 0
      = HttpOutcome.failure e)
    (hresp : e.response = some ri) (hstatus : ri.status = 429) :
    classifyError e = some ErrorClass.RateLimited ∧
    runRequest env overrideBase path transport = (Except.error e, apiClient env, 1) ∧
    (∀ t : RequestConfig → Nat → HttpOutcome,
      (runRequest env overrideBase path t).2.2 = 1) := by
  refine ⟨?_, ?_, ?_⟩
  · unfold classifyError
    rw [hresp]
    dsimp only
    rw [hstatus]
    rfl
  · unfold runRequest
    rw [htrans]
    rfl
  · intro t
    unfold runRequest
    cases t (requestInterceptor env (mkRequestConfig (apiClient env) overrideBase path)) 0 <;> rfl

/-- Witness for C6: a concrete 429 rejection, one request issued. -/
theorem rateLimited_no_retry_witness :
    classifyError ⟨some ⟨429, Json.null⟩, none⟩ = some ErrorClass.RateLimited ∧
    runRequest ⟨none, none⟩ none "/search"
        (fun _ _ => HttpOutcome.failure ⟨some ⟨429, Json.null⟩, none⟩)
      = (Except.error ⟨some ⟨429, Json.null⟩, none⟩, apiClient ⟨none, none⟩, 1) :=
  ⟨(rateLimited_no_retry ⟨none, none⟩ none "/search"
      (fun _ _ => HttpOutcome.failure ⟨some ⟨429, Json.null⟩, none⟩)
      ⟨some ⟨429, Json.null⟩, none⟩ ⟨429, Json.null⟩ rfl rfl rfl).1,
   (rateLimited_no_retry ⟨none, none⟩ none "/search"
      (fun _ _ => HttpOutcome.failure ⟨some ⟨429, Json.null⟩, none⟩)
      ⟨some ⟨429, Json.null⟩, none⟩ ⟨429, Json.null⟩ rfl rfl rfl).2.1⟩

/-! ### C7 — module-initialization configuration of the client -/

/-- C7: the shared client is configured with the environment override as
base URL when a non-empty one is provided and the default
`http://localhost:8000/api/v1` otherwise, with JSON `Content-Type` and
`Accept` default headers, a fixed 10 000 ms timeout, and
`withCredentials` off (no implicit cross-origin credential
transmission). -/
theorem apiClient_initial_config (env : Env) :
    (apiClient env).headers
        = [("Content-Type", "application/json"), ("Accept", "application/json")] ∧
    (apiClient env).timeout = 10000 ∧
    (apiClient env).withCredentials = false ∧
    (∀ s, env.apiBaseUrl = some s → s ≠ "" → (apiClient env).baseURL = s) ∧
    (env.apiBaseUrl = none → (apiClient env).baseURL = "http://localhost:8000/api/v1") := by
  refine ⟨rfl, rfl, rfl, ?_, ?_⟩
  · intro s hs hne
    unfold apiClient API_BASE_URL
    rw [hs]
    dsimp only
    rw [if_neg hne]
  · intro h
    unfold apiClient API_BASE_URL
    rw [h]

/-- Witness for C7 at a concrete environment with an override. -/
theorem apiClient_initial_config_witness :
    (apiClient ⟨some "http://host/api/v1", none⟩).baseURL = "http://host/api/v1" ∧
    (apiClient ⟨some "http://host/api/v1", none⟩).timeout = 10000 :=
  ⟨(apiClient_initial_config ⟨some "http://host/api/v1", none⟩).2.2.2.1
      "http://host/api/v1" rfl (by decide),
   (apiClient_initial_config ⟨some "http://host/api/v1", none⟩).2.1⟩

/-! ### C8 — the health probe's override is call-scoped -/

/-- C8: after any health-probe call (whatever the transport outcome), the
shared client's configuration is exactly the initial one — base URL,
headers, timeout and credential policy unchanged — so a subsequent call
without an override builds its request from the full configured base URL
and the default configuration. -/
theorem healthProbe_preserves_client_config (env : Env)
    (transport : RequestConfig → Nat → HttpOutcome) :
    (checkApiHealth env transport).2 = apiClient env ∧
    (∀ path, mkRequestConfig (checkApiHealth env transport).2 none path
        = mkRequestConfig (apiClient env) none path) ∧
    (∀ path, (mkRequestConfig (checkApiHealth env transport).2 none path).url
        = combineURLs (API_BASE_URL env) path) := by
  have hst : (checkApiHealth env transport).2 = apiClient env := by
    unfold checkApiHealth runRequest
    cases transport (requestInterceptor env
        (mkRequestConfig (apiClient env) (some (healthBase env)) "/health")) 0 <;> rfl
  refine ⟨hst, ?_, ?_⟩
  · intro path; rw [hst]
  · intro path; rw [hst]; rfl

/-! ### C2 — the health probe's base-URL rewrite -/

theorem isPrefixOfB_self (l : List Char) : isPrefixOfB l l = true := by
  induction l with
  | nil => rfl
  | cons a as ih => simp [isPrefixOfB, ih]

theorem listReplaceFirst_append_self (pat : List Char) (hp : pat ≠ []) :
    ∀ l : List Char,
      (∀ n, n < l.length → isPrefixOfB pat ((l ++ pat).drop n) = false) →
      listReplaceFirst pat [] (l ++ pat) = l := by
  intro l
  induction l with
  | nil =>
    intro _
    cases pat with
    | nil => exact absurd rfl hp
    | cons p ps =>
      show listReplaceFirst (p :: ps) [] (p :: ps) = []
      simp only [listReplaceFirst, isPrefixOfB_self, if_true]
      simp [List.drop_length]
  | cons c cs ih =>
    intro h
    have h0 : isPrefixOfB pat (c :: (cs ++ pat)) = false := by
      have h00 := h 0 (Nat.succ_pos cs.length)
      simpa using h00
    have hrest : ∀ n, n < cs.length → isPrefixOfB pat ((cs ++ pat).drop n) = false := by
      intro n hn
      have := h (n + 1) (Nat.succ_lt_succ hn)
      simpa using this
    rw [List.cons_append]
    simp only [listReplaceFirst, h0, Bool.false_eq_true, if_false]
    rw [ih hrest]

theorem dropWhileSlash_eq_self (l : List Char) (h : l.head? ≠ some '/') :
    l.dropWhile (fun c => c == '/') = l := by
  cases l with
  | nil => rfl
  | cons a t =>
    have ha : (a == '/') = false := by
      cases hx : a == '/' with
      | false => rfl
      | true =>
        rw [List.head?_cons] at h
        exact absurd (congrArg some (eq_of_beq hx)) h
    simp [List.dropWhile_cons, ha]

theorem strAppend_assoc (a b c : String) : a ++ b ++ c = a ++ (b ++ c) := by
  cases a with
  | mk x =>
    cases b with
    | mk y =>
      cases c with
      | mk z => exact congrArg String.mk (List.append_assoc x y z)

theorem combineURLs_clean (base rel : String)
    (hb : base.data.reverse.head? ≠ some '/') (hr : rel ≠ "") :
    combineURLs base rel
      = base ++ "/" ++ String.mk (rel.data.dropWhile (fun c => c == '/')) := by
  unfold combineURLs
  rw [if_neg hr, dropWhileSlash_eq_self base.data.reverse hb, List.reverse_reverse]

/-- Counterexample to C2 as stated: with the configured base URL
`http://host/v2` the claim requires the health target
`http://host/health` (root origin plus `/health`), but
`API_BASE_URL.replace('/api/v1', '')` leaves a URL without that substring
untouched, so the probe targets `http://host/v2/health`. -/
theorem healthRequestURL_not_root_origin :
    healthRequestURL ⟨some "http://host/v2", none⟩
      ≠ rootOriginSpec (API_BASE_URL ⟨some "http://host/v2", none⟩) ++ "/health" := by
  decide

/-- C2 (amended): for every configured base URL consisting of an origin
followed by the versioned suffix `/api/v1` — the substring `/api/v1`
occurring nowhere earlier and the origin not ending in a slash — the
health request targets `origin ++ "/health"`, while a request without an
override (every other operation) builds its URL from the full configured
base URL. (For base URLs not of this form the rewrite is a
first-occurrence substring removal, not a suffix strip: see the
counterexample.) -/
theorem healthRequestURL_strips_versioned_suffix (origin : String) (key : Option String)
    (hocc : ∀ n, n < origin.length →
      isPrefixOfB "/api/v1".data ((origin.data ++ "/api/v1".data).drop n) = false)
    (hend : origin.data.reverse.head? ≠ some '/') :
    healthRequestURL ⟨some (origin ++ "/api/v1"), key⟩ = origin ++ "/health" ∧
    (∀ path, (mkRequestConfig (apiClient ⟨some (origin ++ "/api/v1"), key⟩) none path).url
        = combineURLs (origin ++ "/api/v1") path) := by
  have hdata : (origin ++ "/api/v1").data = origin.data ++ "/api/v1".data := by
    cases origin with
    | mk l => rfl
  have hne : origin ++ "/api/v1" ≠ "" := by
    intro hcontra
    have hd := congrArg String.data hcontra
    rw [hdata] at hd
    simp at hd
  have hbase : API_BASE_URL ⟨some (origin ++ "/api/v1"), key⟩ = origin ++ "/api/v1" := by
    unfold API_BASE_URL
    dsimp only
    rw [if_neg hne]
  have hstrip : healthBase ⟨some (origin ++ "/api/v1"), key⟩ = origin := by
    unfold healthBase jsReplace
    rw [hbase, hdata]
    rw [show ("" : String).data = ([] : List Char) from rfl]
    rw [listReplaceFirst_append_self "/api/v1".data (by decide) origin.data hocc]
  constructor
  · unfold healthRequestURL healthRequest
    rw [requestInterceptor_url]
    show combineURLs ((some (healthBase ⟨some (origin ++ "/api/v1"), key⟩)).getD _) "/health"
      = origin ++ "/health"
    rw [Option.getD_some, hstrip]
    rw [combineURLs_clean origin "/health" hend (by decide)]
    rw [show String.mk ("/health".data.dropWhile (fun c => c == '/')) = "health" from by decide]
    rw [strAppend_assoc]
    rfl
  · intro path
    unfold mkRequestConfig
    dsimp only
    rw [Option.getD_none]
    unfold apiClient
    dsimp only
    rw [hbase]

/-- Witness for the amended C2 at the origin `http://host`. -/
theorem healthRequestURL_strips_versioned_suffix_witness :
    healthRequestURL ⟨some ("http://host" ++ "/api/v1"), none⟩ = "http://host" ++ "/health" :=
  (healthRequestURL_strips_versioned_suffix "http://host" none (by decide) (by decide)).1
